import Mathlib

/-!
Shallow embedding of the gairihead hardware-arbitration-and-command-service
core (src/gairi_head_server.py, src/hardware_coordinator.py,
src/servo_controller.py, src/camera_manager.py).

Python float timestamps are modelled as integers (the linear time axis); Python
dicts/JSON values as the inductive `PyVal`; Python exceptions raised by
opaque collaborators as oracle booleans in an `Env` record; side effects on
the hardware as an explicit event trace.
-/

namespace Gairi

/-! ## Rate limiter (gairi_head_server.py, class RateLimiter) -/

/-- Per-connection rate-limiter state: `request_history[conn]` (a deque of
timestamps, oldest first) and `violations[conn]`. -/
structure ConnState where
  history : List ℤ
  violations : Nat
  deriving Repr, DecidableEq

/-- The `defaultdict` default: empty history, zero violations. -/
def ConnState.init : ConnState := ⟨[], 0⟩

/-- Rate-limiter configuration: `requests_per_minute` and `window_seconds`
from `RateLimiter.__init__` (defaults 30 and 60; the server constructs it
with exactly those values). -/
structure RLConfig where
  requests_per_minute : Nat
  window_seconds : ℤ
  deriving Repr

/-- The configuration the server uses:
`RateLimiter(requests_per_minute=30, window_seconds=60)`. -/
def serverRL : RLConfig := ⟨30, 60⟩

/-- The `while history and history[0] < now - self.window_seconds:
history.popleft()` loop: drop the longest prefix of entries strictly older
than the window. -/
def pruneOld (window now : ℤ) : List ℤ → List ℤ
  | [] => []
  | t :: ts => if t < now - window then pruneOld window now ts else t :: ts

/-- The exponential backoff computed on a violation:
`min(300, 10 * (2 ** (violation_count - 1)))`. -/
def backoffSeconds (violation_count : Nat) : Nat :=
  min 300 (10 * 2 ^ (violation_count - 1))

/-- Result of one `check_rate_limit` call: allowed flag, and on denial the
advertised backoff (the number of seconds embedded in the error message
"Please wait {backoff_seconds} seconds before retrying."). -/
structure RLResult where
  allowed : Bool
  retry_after : Option Nat
  deriving Repr, DecidableEq

/-- `RateLimiter.check_rate_limit` for one connection: prune old entries,
deny (incrementing the violation counter and computing backoff) when the
remaining count is at or over the limit, otherwise record `now` and allow. -/
def check_rate_limit (cfg : RLConfig) (s : ConnState) (now : ℤ) :
    ConnState × RLResult :=
  let history := pruneOld cfg.window_seconds now s.history
  if cfg.requests_per_minute ≤ history.length then
    let v := s.violations + 1
    (⟨history, v⟩, ⟨false, some (backoffSeconds v)⟩)
  else
    (⟨history ++ [now], s.violations⟩, ⟨true, none⟩)

/-- `RateLimiter.cleanup_connection`: the connection's history and violation
entries are deleted, so a later lookup sees the defaultdict default again. -/
def cleanup_connection : ConnState := ConnState.init

/-- Entries of a history that lie inside the window ending at `now`. -/
def withinWindow (window now : ℤ) (l : List ℤ) : Bool :=
  l.all fun t => decide (now - window ≤ t)

/-- Run a sequence of checks at the given times, returning the final state
and the list of results. -/
def runChecks (cfg : RLConfig) (s : ConnState) : List ℤ → ConnState × List RLResult
  | [] => (s, [])
  | t :: ts =>
    let (s', r) := check_rate_limit cfg s t
    let (s'', rs) := runChecks cfg s' ts
    (s'', r :: rs)

/-- An operation the server performs on one connection's rate-limiter
entries: a `check_rate_limit` call at some time, or `cleanup_connection`
when the connection closes. -/
inductive RLOp where
  | check (t : ℤ)
  | cleanup
  deriving Repr, DecidableEq

/-- Apply one rate-limiter operation to a connection's state. -/
def applyRLOp (cfg : RLConfig) (s : ConnState) : RLOp → ConnState
  | .check t => (check_rate_limit cfg s t).1
  | .cleanup => cleanup_connection

/-- Apply a sequence of rate-limiter operations. -/
def applyRLOps (cfg : RLConfig) (s : ConnState) : List RLOp → ConnState
  | [] => s
  | op :: ops => applyRLOps cfg (applyRLOp cfg s op) ops

/-! ## Python values (JSON payloads, command dicts) -/

/-- A Python/JSON value as the server sees one after `json.loads`. Floats
are modelled as rationals. -/
inductive PyVal where
  | pstr (s : String)
  | pint (n : ℤ)
  | pfloat (q : ℚ)
  | pbool (b : Bool)
  | pnone
  | pdict (fields : List (String × PyVal))
  | plist (elems : List PyVal)
  deriving Repr

/-- Python truthiness (`if not x`): None, False, 0, 0.0, "", empty dict and
empty list are falsy. -/
def truthy : PyVal → Bool
  | .pstr s => !(s == "")
  | .pint n => !(n == 0)
  | .pfloat q => !(q == 0)
  | .pbool b => b
  | .pnone => false
  | .pdict l => !l.isEmpty
  | .plist l => !l.isEmpty

/-- `d.get(k)` on a Python dict: `None` when the key is absent. -/
def pyGet (d : List (String × PyVal)) (k : String) : PyVal :=
  match d.find? (fun p => p.1 == k) with
  | some p => p.2
  | none => .pnone

/-- `d.get(k, default)` on a Python dict. -/
def pyGetD (d : List (String × PyVal)) (k : String) (dflt : PyVal) : PyVal :=
  match d.find? (fun p => p.1 == k) with
  | some p => p.2
  | none => dflt

/-- `isinstance(x, str)`. -/
def isStr : PyVal → Bool
  | .pstr _ => true
  | _ => false

/-- `isinstance(x, int)`; Python `bool` is a subclass of `int`. -/
def isInt : PyVal → Bool
  | .pint _ => true
  | .pbool _ => true
  | _ => false

/-- `isinstance(x, (int, float))`. -/
def isNum : PyVal → Bool
  | .pint _ => true
  | .pfloat _ => true
  | .pbool _ => true
  | _ => false

/-- The string content of a value known to be a string. -/
def asStr : PyVal → String
  | .pstr s => s
  | _ => ""

/-- The integer content of a value that passes `isinstance(x, int)`. -/
def asInt : PyVal → ℤ
  | .pint n => n
  | .pbool b => if b then 1 else 0
  | _ => 0

/-- The numeric content, as a rational, of a value that passes
`isinstance(x, (int, float))`. -/
def asNum : PyVal → ℚ
  | .pint n => (n : ℚ)
  | .pfloat q => q
  | .pbool b => if b then 1 else 0
  | _ => 0

/-! ## Command validator (GairiHeadServer._validate_command) -/

/-- `GairiHeadServer.ALLOWED_ACTIONS` (a Python set; membership only). -/
def ALLOWED_ACTIONS : List String :=
  ["capture_snapshot", "record_audio", "analyze_scene", "get_status",
   "set_expression", "detect_faces", "speak", "blink", "test_sync"]

/-- The `', '.join(sorted(self.ALLOWED_ACTIONS))` suffix of the
unknown-action error. -/
def allowedActionsSorted : String :=
  "analyze_scene, blink, capture_snapshot, detect_faces, get_status, record_audio, set_expression, speak, test_sync"

/-- `GairiHeadServer._validate_command` on a command dict: returns the error
message when invalid, `none` when valid. (Calling it on a parsed value that
is not a dict raises AttributeError in the source; that case is handled at
`handle_command` as a crash, see `Outcome.crash`.) -/
def _validate_command (command : List (String × PyVal)) : Option String :=
  let action := pyGet command "action"
  if !(truthy action) then some "Missing required field: 'action'"
  else if !(isStr action) then some "Field 'action' must be a string"
  else
    let a := asStr action
    if !(ALLOWED_ACTIONS.contains a) then
      some ("Unknown action: " ++ a ++ ". Allowed: " ++ allowedActionsSorted)
    else
      match pyGetD command "params" (.pdict []) with
      | .pdict ps =>
        if a == "speak" then
          let text := pyGet ps "text"
          if !(truthy text) then
            some "Missing required parameter 'text' for speak action"
          else if !(isStr text) then
            some "Parameter 'text' must be a string"
          else if 5000 < (asStr text).length then
            some "Parameter 'text' exceeds maximum length (5000 characters)"
          else none
        else if a == "set_expression" then
          let expression := pyGet ps "expression"
          if !(truthy expression) then
            some "Missing required parameter 'expression' for set_expression action"
          else if !(isStr expression) then
            some "Parameter 'expression' must be a string"
          else if 50 < (asStr expression).length then
            some "Parameter 'expression' too long (max 50 characters)"
          else none
        else if a == "record_audio" then
          let duration := pyGetD ps "duration" (.pint 3)
          if !(isNum duration) then
            some "Parameter 'duration' must be a number"
          else if asNum duration < 1 / 10 ∨ 60 < asNum duration then
            some "Parameter 'duration' must be between 0.1 and 60 seconds"
          else none
        else if a == "capture_snapshot" then
          let quality := pyGetD ps "quality" (.pint 85)
          if !(isInt quality) then
            some "Parameter 'quality' must be an integer"
          else if asInt quality < 1 ∨ 100 < asInt quality then
            some "Parameter 'quality' must be between 1 and 100"
          else none
        else none
      | _ => some "Field 'params' must be a dictionary"

/-! ## Dispatch and the hardware handlers

Side effects are recorded as an explicit event trace. The opaque
collaborators (servo moves, voice synthesis, camera reads, display writes)
and the OS are modelled by an `Env` oracle: whether the lock acquisition
succeeds within its timeout, whether the opaque action raises, whether the
camera/microphone deliver data, whether the Arduino display is connected. -/

/-- One observable effect of a handler. `acquire t r ok` is a
`coordinator.acquire(timeout=t, is_remote=r)` call returning `ok`;
`release` is `coordinator.release()`; `hw s` is one opaque call touching a
physical device; `displayClose` is the Arduino serial-port close performed
in `_handle_speak`'s finally block. -/
inductive Event where
  | acquire (timeout : ℤ) (is_remote : Bool) (ok : Bool)
  | release
  | hw (deviceCall : String)
  | displayClose
  deriving Repr, DecidableEq

/-- Oracle for everything outside the arbitration core. -/
structure Env where
  acquire_ok : Bool
  action_raises : Bool
  raise_msg : String
  display_connected : Bool
  camera_ok : Bool
  audio_ok : Bool
  deriving Repr, DecidableEq

/-- A handler's reply: `{'status': 'success', 'data': ...}` (payload opaque,
summarized by a tag) or `{'status': 'error', 'error': msg}`. -/
inductive Response where
  | success (data : String)
  | error (error : String)
  deriving Repr, DecidableEq

/-- `GairiHeadServer._handle_set_expression`: acquire the lock with
`timeout=5.0, is_remote=True`; on success move the servos and update the
display inside a try/finally that always releases; the outer except turns a
raised error into a status=error response. When the opaque action raises,
the raise is modelled at the first device call. -/
def _handle_set_expression (env : Env) (params : List (String × PyVal)) :
    Response × List Event :=
  if !env.acquire_ok then
    (.error "Hardware busy - could not acquire lock", [.acquire 5 true false])
  else
    let body : List Event :=
      if env.action_raises then [.hw "servos.set_expression"]
      else
        [.hw "servos.set_expression"] ++
          (if env.display_connected then [.hw "display.update_status"] else [])
    let tr := .acquire 5 true true :: body ++ [.release]
    if env.action_raises then
      (.error ("Failed to set expression: " ++ env.raise_msg), tr)
    else (.success "expression", tr)

/-- `GairiHeadServer._handle_speak`: reject empty text before touching
anything; acquire with `timeout=10.0, is_remote=True`; speak inside a
try/finally whose finally closes the Arduino display (when connected) and
always releases the lock; the outer except converts a raise into a
status=error response. -/
def _handle_speak (env : Env) (params : List (String × PyVal)) :
    Response × List Event :=
  let textVal := pyGetD params "text" (.pstr "")
  if !(truthy textVal) then (.error "No text provided to speak", [])
  else if !env.acquire_ok then
    (.error "Hardware busy - could not acquire lock", [.acquire 10 true false])
  else
    let exprEvents : List Event :=
      if truthy (pyGet params "expression") then [.hw "servos.set_expression"]
      else []
    let preDisplay : List Event :=
      if env.display_connected then [.hw "display.show_conversation"] else []
    let postDisplay : List Event :=
      if env.display_connected then [.hw "display.update_status"] else []
    let body : List Event :=
      if env.action_raises then exprEvents ++ preDisplay ++ [.hw "voice.speak"]
      else exprEvents ++ preDisplay ++ [.hw "voice.speak"] ++ postDisplay
    let fin : List Event :=
      (if env.display_connected then [.displayClose] else []) ++ [.release]
    let tr := .acquire 10 true true :: body ++ fin
    if env.action_raises then
      (.error ("Failed to speak: " ++ env.raise_msg), tr)
    else (.success "speak", tr)

/-- `GairiHeadServer._handle_blink`: acquire with `timeout=5.0,
is_remote=True`; blink `count` times (default 1; `range` of a negative
count is empty) inside the try/finally; a raise becomes a status=error
response after the finally released the lock. -/
def _handle_blink (env : Env) (params : List (String × PyVal)) :
    Response × List Event :=
  if !env.acquire_ok then
    (.error "Hardware busy - could not acquire lock", [.acquire 5 true false])
  else
    let count := (asInt (pyGetD params "count" (.pint 1))).toNat
    let body : List Event :=
      if env.action_raises then [.hw "servos.blink"]
      else List.replicate count (.hw "servos.blink")
    let tr := .acquire 5 true true :: body ++ [.release]
    if env.action_raises then
      (.error ("Failed to blink: " ++ env.raise_msg), tr)
    else (.success "blink", tr)

/-- `GairiHeadServer._handle_test_sync`: acquire with `timeout=5.0,
is_remote=True`; run the sync test inside the try/finally; a raise becomes
a status=error response. -/
def _handle_test_sync (env : Env) (params : List (String × PyVal)) :
    Response × List Event :=
  if !env.acquire_ok then
    (.error "Hardware busy - could not acquire lock", [.acquire 5 true false])
  else
    let body : List Event :=
      if env.action_raises then [.hw "servos.test_sync_movement"]
      else [.hw "servos.test_sync_movement"]
    let tr := .acquire 5 true true :: body ++ [.release]
    if env.action_raises then
      (.error ("Failed to run sync test: " ++ env.raise_msg), tr)
    else (.success "sync_movement_complete", tr)

/-- `GairiHeadServer._handle_capture_snapshot`: reads a camera frame with no
lock acquisition at all; a failed read returns a status=error response. -/
def _handle_capture_snapshot (env : Env) (params : List (String × PyVal)) :
    Response × List Event :=
  if !env.camera_ok then
    (.error "Failed to capture frame", [.hw "camera.read_frame"])
  else (.success "snapshot", [.hw "camera.read_frame"])

/-- `GairiHeadServer._handle_record_audio`: records from the microphone with
no lock acquisition; a recording error is caught and reported. -/
def _handle_record_audio (env : Env) (params : List (String × PyVal)) :
    Response × List Event :=
  if !env.audio_ok then
    (.error ("Audio recording failed: " ++ env.raise_msg), [.hw "audio.record"])
  else (.success "audio", [.hw "audio.record"])

/-- `GairiHeadServer._handle_analyze_scene`: camera read plus in-process
face detection, no lock acquisition. -/
def _handle_analyze_scene (env : Env) (params : List (String × PyVal)) :
    Response × List Event :=
  if !env.camera_ok then
    (.error "Failed to capture frame", [.hw "camera.read_frame"])
  else (.success "scene", [.hw "camera.read_frame"])

/-- `GairiHeadServer._handle_detect_faces`: camera read plus in-process
face detection, no lock acquisition. -/
def _handle_detect_faces (env : Env) (params : List (String × PyVal)) :
    Response × List Event :=
  if !env.camera_ok then
    (.error "Failed to capture frame", [.hw "camera.read_frame"])
  else (.success "faces", [.hw "camera.read_frame"])

/-- `GairiHeadServer._handle_get_status`: reads filesystem presence flags
and cached state only; touches no device and takes no lock. -/
def _handle_get_status (env : Env) (params : List (String × PyVal)) :
    Response × List Event :=
  (.success "status", [])

/-- Result of `handle_command`: a response with the trace of effects, or an
uncaught exception propagating out (only possible from `_validate_command`
on a non-dict command, which the source calls before its try block). -/
inductive Outcome where
  | ok (response : Response) (trace : List Event)
  | crash (trace : List Event)
  deriving Repr, DecidableEq

/-- Lift a handler's value into an outcome. -/
def Outcome.of (p : Response × List Event) : Outcome := .ok p.1 p.2

/-- The response of an `Outcome.ok`, `none` on a crash. -/
def Outcome.response? : Outcome → Option Response
  | .ok r _ => some r
  | .crash _ => none

/-- The effect trace of an outcome. -/
def Outcome.trace : Outcome → List Event
  | .ok _ tr => tr
  | .crash tr => tr

/-- `GairiHeadServer.handle_command`: validate first (outside the try
block), return the validation error without any side effect when invalid,
otherwise route on the action string. -/
def handle_command (env : Env) (command : PyVal) : Outcome :=
  match command with
  | .pdict cmd =>
    match _validate_command cmd with
    | some err => .ok (.error err) []
    | none =>
      let action := asStr (pyGet cmd "action")
      let params : List (String × PyVal) :=
        match pyGetD cmd "params" (.pdict []) with
        | .pdict ps => ps
        | _ => []
      if action == "capture_snapshot" then .of (_handle_capture_snapshot env params)
      else if action == "record_audio" then .of (_handle_record_audio env params)
      else if action == "analyze_scene" then .of (_handle_analyze_scene env params)
      else if action == "get_status" then .of (_handle_get_status env params)
      else if action == "set_expression" then .of (_handle_set_expression env params)
      else if action == "detect_faces" then .of (_handle_detect_faces env params)
      else if action == "speak" then .of (_handle_speak env params)
      else if action == "blink" then .of (_handle_blink env params)
      else if action == "test_sync" then .of (_handle_test_sync env params)
      else .ok (.error ("Unknown action: " ++ action)) []
  | _ => .crash []

/-- The four whitelisted actions whose handlers take the hardware lock. -/
def lockActions : List String := ["set_expression", "speak", "blink", "test_sync"]

/-! ### Trace predicates -/

/-- Scan a trace with the lock-held flag: `none` when a device call or a
release happens unlocked, or an acquire happens while already locked;
otherwise the final lock state. A trace `tr` with
`lockedScan false tr = some false` acquires before every device call and
has released by its end. -/
def lockedScan : Bool → List Event → Option Bool
  | locked, [] => some locked
  | locked, .acquire _ _ ok :: tr => if locked then none else lockedScan ok tr
  | locked, .release :: tr => if locked then lockedScan false tr else none
  | locked, .hw _ :: tr => if locked then lockedScan locked tr else none
  | locked, .displayClose :: tr => lockedScan locked tr

/-- Every event is a device call or a display close (no lock operation). -/
def noLockOps (tr : List Event) : Bool :=
  tr.all fun e =>
    match e with
    | .hw _ => true
    | .displayClose => true
    | _ => false

/-- Number of successful acquire events in a trace. -/
def countAcquireOk (tr : List Event) : Nat :=
  tr.countP fun e =>
    match e with
    | .acquire _ _ true => true
    | _ => false

/-- Number of acquire events (successful or not) in a trace. -/
def countAcquire (tr : List Event) : Nat :=
  tr.countP fun e =>
    match e with
    | .acquire _ _ _ => true
    | _ => false

/-- Number of release events in a trace. -/
def countRelease (tr : List Event) : Nat :=
  tr.countP fun e =>
    match e with
    | .release => true
    | _ => false

/-- Number of device-call events in a trace. -/
def countHw (tr : List Event) : Nat :=
  tr.countP fun e =>
    match e with
    | .hw _ => true
    | _ => false

/-- Every acquire event in the trace carries `is_remote = true`. -/
def allRemote (tr : List Event) : Bool :=
  tr.all fun e =>
    match e with
    | .acquire _ r _ => r
    | _ => true

/-- The lock is paired on all exit paths: starting unlocked, the scan
succeeds and ends unlocked. -/
def pairedLock (tr : List Event) : Prop := lockedScan false tr = some false

instance (tr : List Event) : Decidable (pairedLock tr) := by
  unfold pairedLock; infer_instance

/-! ## Connection handling (GairiHeadServer.handle_client) -/

/-- The result of one `websocket.recv` inside the message loop, after
`json.loads`: a JSON parse failure or a parsed value. -/
inductive Recv where
  | badJson
  | val (v : PyVal)
  deriving Repr

/-- The result of the authentication wait
`asyncio.wait_for(websocket.recv(), timeout=5.0)` followed by
`json.loads`. -/
inductive AuthRecv where
  | timeout
  | badJson
  | val (v : PyVal)
  deriving Repr

/-- The `timeout=5.0` passed to the authentication wait. -/
def auth_timeout_seconds : ℤ := 5

/-- The server's connection ceiling, `self.max_connections = 10`. -/
def max_connections : Nat := 10

/-- What one connection's lifetime produced. `dispatched` lists the parsed
commands that reached `handle_command`. -/
structure ClientOutcome where
  limitRejected : Bool
  authenticated : Bool
  authErrorSent : Bool
  dispatched : List PyVal
  deriving Repr

/-- The `async for message in websocket` loop: rate-limit check first
(denials get an error reply and the loop continues), then JSON parse
(failures get an error reply and the loop continues), then
`handle_command`; an uncaught exception from `handle_command` aborts the
loop (the connection is torn down, later messages unprocessed). -/
def clientLoop (cfg : RLConfig) (env : Env) :
    ConnState → List (ℤ × Recv) → List PyVal
  | _, [] => []
  | s, (t, m) :: ms =>
    let (s', r) := check_rate_limit cfg s t
    if !r.allowed then clientLoop cfg env s' ms
    else
      match m with
      | .badJson => clientLoop cfg env s' ms
      | .val v =>
        match handle_command env v with
        | .ok _ _ => v :: clientLoop cfg env s' ms
        | .crash _ => [v]

/-- Is the configured token carried by the first message? (The source
compares `auth_data.get('token') == self.api_token`: only an exactly equal
string matches.) -/
def carriesToken (tok : String) : AuthRecv → Bool
  | .val (.pdict d) =>
    match pyGet d "token" with
    | .pstr s => s == tok
    | _ => false
  | _ => false

/-- `GairiHeadServer.handle_client`: reject at the connection ceiling;
with a configured token, require the first message to carry it — a timeout,
JSON parse failure (both caught) gets an error reply, a token mismatch gets
an error reply and close, while a parsed non-dict first message raises
AttributeError (not in the caught tuple) and tears the connection down with
no reply; without a token every admitted connection is authenticated.
Only an authenticated connection enters the message loop. -/
def handle_client (api_token : Option String) (env : Env)
    (activeCount : Nat) (auth : AuthRecv) (msgs : List (ℤ × Recv)) :
    ClientOutcome :=
  if max_connections ≤ activeCount then
    ⟨true, false, false, []⟩
  else
    match api_token with
    | some tok =>
      match auth with
      | .timeout => ⟨false, false, true, []⟩
      | .badJson => ⟨false, false, true, []⟩
      | .val (.pdict d) =>
        if (match pyGet d "token" with
            | .pstr s => s == tok
            | _ => false) then
          ⟨false, true, false, clientLoop serverRL env ConnState.init msgs⟩
        else ⟨false, false, true, []⟩
      | .val _ => ⟨false, false, false, []⟩
    | none =>
      ⟨false, true, false, clientLoop serverRL env ConnState.init msgs⟩

/-! ## Hardware coordinator (hardware_coordinator.py) -/

/-- `HardwareCoordinator` state: the open lock-file object (`None` or a
file-descriptor id) and the `is_locked` flag. -/
structure Coordinator where
  lock_fd : Option Nat
  is_locked : Bool
  deriving Repr, DecidableEq

/-- A freshly constructed coordinator: `lock_fd = None`,
`is_locked = False`. -/
def Coordinator.init : Coordinator := ⟨none, false⟩

/-- What one iteration of `acquire`'s loop encounters: the non-blocking
`flock` succeeds, raises IOError (lock held elsewhere), or some step raises
a non-IOError exception. -/
inductive AttemptOutcome where
  | success
  | ioError
  | otherError
  deriving Repr, DecidableEq

/-- The value of one `acquire` call: the post state, the returned boolean,
and how many loop iterations ran. -/
structure AcquireResult where
  post : Coordinator
  ok : Bool
  iterations : Nat
  deriving Repr, DecidableEq

/-- The retry loop of `HardwareCoordinator.acquire`. Iteration `k` opens
the lock file (modelled as fd id `k`) and consults the oracle:
on success it records the holder and sets `is_locked`; on IOError it
retries after `time.sleep(0.1)` until the timeout elapses (`fuel` is the
number of retries the timeout still allows) and then closes the fd and
returns False; on any other exception it closes the fd and returns False
at once. -/
def acquireAux (attempts : Nat → AttemptOutcome) :
    Nat → Nat → Coordinator → AcquireResult
  | 0, k, c =>
    match attempts k with
    | .success => ⟨⟨some k, true⟩, true, k + 1⟩
    | .ioError => ⟨⟨none, c.is_locked⟩, false, k + 1⟩
    | .otherError => ⟨⟨none, c.is_locked⟩, false, k + 1⟩
  | fuel + 1, k, c =>
    match attempts k with
    | .success => ⟨⟨some k, true⟩, true, k + 1⟩
    | .ioError => acquireAux attempts fuel (k + 1) ⟨some k, c.is_locked⟩
    | .otherError => ⟨⟨none, c.is_locked⟩, false, k + 1⟩

/-- `HardwareCoordinator.acquire(timeout, is_remote)`: run the retry loop
from iteration 0. (`is_remote` only changes the holder annotation written
to the lock file, not the control flow.) -/
def Coordinator.acquire (c : Coordinator) (attempts : Nat → AttemptOutcome)
    (fuel : Nat) : AcquireResult :=
  acquireAux attempts fuel 0 c

/-- `HardwareCoordinator.release`: only when `is_locked` and `lock_fd` are
both set does it unlock and close inside a try/except/finally — the finally
always clears `lock_fd`, and `is_locked` becomes False only when the
unlock/close did not raise; otherwise the call is a no-op. -/
def Coordinator.release (c : Coordinator) (unlockRaises : Bool) : Coordinator :=
  if c.is_locked ∧ c.lock_fd.isSome then
    if unlockRaises then ⟨none, c.is_locked⟩
    else ⟨none, false⟩
  else c

/-! ## Device-handle lifecycles (servo_controller.py, camera_manager.py) -/

/-- `ServoController`'s jitter-reduction state: whether the PWM drive is
active (gpiozero servos attached), whether the GPIO pins are still claimed
by the process (only `close()` releases them), and the deadline of the
pending `threading.Timer` armed by `_schedule_detach`. -/
structure ServoState where
  attached : Bool
  pins_claimed : Bool
  pending_detach : Option ℤ
  deriving Repr, DecidableEq

/-- `self.detach_delay = 2.0` seconds of no movement before detaching. -/
def detach_delay : ℤ := 2

/-- A servo movement at time `t` (`set_left_eyelid` / `set_right_eyelid` /
`set_mouth`): `_attach_servos()` re-attaches, the move runs, and
`_schedule_detach()` cancels any pending timer and arms a new one for
`t + detach_delay`. -/
def servoMove (s : ServoState) (t : ℤ) : ServoState :=
  ⟨true, s.pins_claimed, some (t + detach_delay)⟩

/-- Time passing with no further servo calls up to time `t`: when the armed
timer's deadline has passed, its thread runs `_detach_servos`, which calls
`detach()` on each servo — stopping the PWM drive — but does not release
the GPIO pins. -/
def servoElapse (s : ServoState) (t : ℤ) : ServoState :=
  match s.pending_detach with
  | some d => if d ≤ t then ⟨false, s.pins_claimed, none⟩ else s
  | none => s

/-- `ServoController.close()`: cancel the timer and release the GPIO
pins. -/
def servoClose (s : ServoState) : ServoState := ⟨false, false, none⟩

/-- `CameraManager`'s open state: whether the OS camera device is held. -/
structure CamState where
  is_opened : Bool
  deriving Repr, DecidableEq

/-- A camera manager before first use. -/
def CamState.init : CamState := ⟨false⟩

/-- `CameraManager.read_frame`: lazily opens the camera on first use (when
opening succeeds) and leaves it open; no idle timer is armed anywhere in
`camera_manager.py`. -/
def camReadFrame (c : CamState) (openOk : Bool) : CamState :=
  ⟨c.is_opened || openOk⟩

/-- Time passing with no further camera calls: `CameraManager` has no
idle-release mechanism, so nothing changes — the device stays held until an
explicit `close()`/`release()`. -/
def camElapse (c : CamState) (t : ℤ) : CamState := c

/-- `CameraManager.close` / `CameraManager.release`: explicitly frees the
device. -/
def camClose (c : CamState) : CamState := ⟨false⟩

/-! # Theorems -/

/-! ## Rate-limiter lemmas -/

theorem pruneOld_bound (w now : ℤ) (l : List ℤ) (hs : l.Sorted (· ≤ ·)) :
    ∀ t ∈ pruneOld w now l, now - w ≤ t := by
  induction l with
  | nil => simp [pruneOld]
  | cons h tl ih =>
    rw [pruneOld]
    rcases List.sorted_cons.mp hs with ⟨hh, htl⟩
    by_cases hlt : h < now - w
    · simpa [hlt] using ih htl
    · simp only [hlt, if_false]
      intro t ht
      rcases List.mem_cons.mp ht with rfl | hmem
      · omega
      · have := hh t hmem; omega

theorem pruneOld_nil_of_old (w now : ℤ) (l : List ℤ)
    (h : ∀ t ∈ l, t < now - w) : pruneOld w now l = [] := by
  induction l with
  | nil => rfl
  | cons a tl ih =>
    rw [pruneOld]
    have ha : a < now - w := h a (List.mem_cons_self a tl)
    simp only [ha, if_true]
    exact ih fun t ht => h t (List.mem_cons_of_mem a ht)

theorem check_violations_mono (cfg : RLConfig) (s : ConnState) (now : ℤ) :
    s.violations ≤ (check_rate_limit cfg s now).1.violations := by
  simp only [check_rate_limit]
  split <;> simp

/-- C4: each rate-limit check first discards entries older than the window
(so, for the recorded — hence sorted — histories, every surviving entry is
within the window), denies exactly when the pruned count is at or over the
limit of 30, records the timestamp and allows when under the limit, and
allows again once the window has fully elapsed; concretely, of 31 requests
inside one 60-second window the first 30 are allowed and the 31st is
denied, and an identical request after the window has elapsed succeeds. -/
theorem claim4_rate_limit_check :
    (∀ (s : ConnState) (now : ℤ), s.history.Sorted (· ≤ ·) →
      withinWindow serverRL.window_seconds now
        ((check_rate_limit serverRL s now).1).history = true) ∧
    (∀ (s : ConnState) (now : ℤ),
      ((check_rate_limit serverRL s now).2.allowed = false ↔
        30 ≤ (pruneOld 60 now s.history).length)) ∧
    (∀ (s : ConnState) (now : ℤ),
      (pruneOld 60 now s.history).length < 30 →
      (check_rate_limit serverRL s now).2.allowed = true ∧
      ((check_rate_limit serverRL s now).1).history
        = pruneOld 60 now s.history ++ [now]) ∧
    (∀ (s : ConnState) (now : ℤ),
      (∀ t ∈ s.history, t < now - 60) →
      (check_rate_limit serverRL s now).2.allowed = true) ∧
    ((runChecks serverRL ConnState.init
        (((List.range 31).map (fun i => (i : ℤ))) ++ [91])).2.map RLResult.allowed
      = List.replicate 30 true ++ [false, true]) := by
  refine ⟨?_, ?_, ?_, ?_, by decide⟩
  · intro s now hs
    have hb := pruneOld_bound (serverRL.window_seconds) now s.history hs
    simp only [check_rate_limit]
    split
    · simp only [withinWindow, List.all_eq_true, decide_eq_true_eq]
      exact hb
    · simp only [withinWindow, List.all_eq_true, decide_eq_true_eq]
      intro t ht
      rcases List.mem_append.mp ht with hmem | hmem
      · exact hb t hmem
      · simp only [List.mem_singleton] at hmem
        subst hmem
        have : (0 : ℤ) ≤ serverRL.window_seconds := by decide
        omega
  · intro s now
    simp only [check_rate_limit]
    split <;> simp_all [serverRL]
  · intro s now h
    simp only [check_rate_limit, serverRL]
    split
    · omega
    · simp
  · intro s now h
    have hnil := pruneOld_nil_of_old 60 now s.history h
    simp only [check_rate_limit]
    split
    · next hcond =>
      exfalso
      rw [show serverRL.window_seconds = 60 from rfl, hnil] at hcond
      simp [serverRL] at hcond
    · simp

/-- C4 witness: the general conjuncts applied at concrete inputs. -/
theorem claim4_rate_limit_check_witness :
    withinWindow serverRL.window_seconds 100
      ((check_rate_limit serverRL ⟨[30, 95], 0⟩ 100).1).history = true ∧
    (check_rate_limit serverRL ⟨[30, 35], 2⟩ 100).2.allowed = true := by
  have h := claim4_rate_limit_check
  exact ⟨h.1 ⟨[30, 95], 0⟩ 100 (by decide), h.2.2.2.1 ⟨[30, 35], 2⟩ 100 (by decide)⟩

/-- C5: a denial on the k-th violation advertises
`min(300, 10 * 2^(k-1))` seconds of backoff; the backoff is strictly
increasing while below the 300-second cap, never exceeds the cap, and is
pinned at 300 from the sixth violation on; the first six values are
10, 20, 40, 80, 160, 300. -/
theorem claim5_backoff_progression :
    (∀ (s : ConnState) (now : ℤ) (k : Nat), s.violations + 1 = k →
      30 ≤ (pruneOld 60 now s.history).length →
      (check_rate_limit serverRL s now).2.retry_after
          = some (min 300 (10 * 2 ^ (k - 1))) ∧
      (check_rate_limit serverRL s now).1.violations = k) ∧
    (∀ k, 1 ≤ k → backoffSeconds k < 300 →
      backoffSeconds k < backoffSeconds (k + 1)) ∧
    (∀ k, backoffSeconds k ≤ 300) ∧
    (∀ k, 6 ≤ k → backoffSeconds k = 300) ∧
    ((List.range 6).map (fun i => backoffSeconds (i + 1))
      = [10, 20, 40, 80, 160, 300]) := by
  refine ⟨?_, ?_, ?_, ?_, by decide⟩
  · intro s now k hk hge
    simp only [check_rate_limit]
    split
    · subst hk; exact ⟨rfl, rfl⟩
    · next hcond =>
      exfalso
      rw [show serverRL.window_seconds = 60 from rfl] at hcond
      simp [serverRL] at hcond
      omega
  · intro k hk hlt
    unfold backoffSeconds at *
    have hpow : 10 * 2 ^ (k + 1 - 1) = 2 * (10 * 2 ^ (k - 1)) := by
      have h1 : k + 1 - 1 = (k - 1) + 1 := by omega
      rw [h1, pow_succ]; ring
    have hpos : 0 < 10 * 2 ^ (k - 1) := by positivity
    omega
  · intro k
    exact min_le_left _ _
  · intro k hk
    unfold backoffSeconds
    have h5 : (2 : ℕ) ^ 5 ≤ 2 ^ (k - 1) :=
      Nat.pow_le_pow_right (by norm_num) (by omega)
    have h32 : (2 : ℕ) ^ 5 = 32 := by norm_num
    omega

/-- C5 witness: the k-th-violation conjunct applied at a concrete denial
(third violation) together with the strict-increase conjunct at k = 3. -/
theorem claim5_backoff_progression_witness :
    (check_rate_limit serverRL
        ⟨(List.range 30).map (fun i => (i : ℤ)), 2⟩ 30).2.retry_after
      = some (min 300 (10 * 2 ^ (3 - 1))) ∧
    backoffSeconds 3 < backoffSeconds 4 := by
  have h := claim5_backoff_progression
  exact ⟨(h.1 ⟨(List.range 30).map (fun i => (i : ℤ)), 2⟩ 30 3 rfl (by decide)).1,
    h.2.1 3 (by decide) (by decide)⟩

/-- C9: a check leaves the violation counter unchanged when it allows and
increments it by one when it denies; across any sequence of checks with no
`cleanup_connection`, the counter never decreases; and the advertised
backoff is monotone in the counter, so a later violation's backoff is at
least any earlier one's. -/
theorem claim9_violations_monotone :
    (∀ (cfg : RLConfig) (s : ConnState) (now : ℤ),
      ((check_rate_limit cfg s now).2.allowed = true →
        (check_rate_limit cfg s now).1.violations = s.violations) ∧
      ((check_rate_limit cfg s now).2.allowed = false →
        (check_rate_limit cfg s now).1.violations = s.violations + 1)) ∧
    (∀ (cfg : RLConfig) (s : ConnState) (ops : List RLOp),
      RLOp.cleanup ∉ ops →
      s.violations ≤ (applyRLOps cfg s ops).violations) ∧
    (∀ k j : Nat, k ≤ j → backoffSeconds k ≤ backoffSeconds j) := by
  refine ⟨?_, ?_, ?_⟩
  · intro cfg s now
    constructor <;> (simp only [check_rate_limit]; split <;> simp)
  · intro cfg s ops
    induction ops generalizing s with
    | nil => intro _; exact le_refl _
    | cons op ops ih =>
      intro hmem
      have hop : op ≠ RLOp.cleanup := fun h => hmem (h ▸ List.mem_cons_self op ops)
      have hops : RLOp.cleanup ∉ ops := fun h => hmem (List.mem_cons_of_mem op h)
      rw [applyRLOps]
      refine le_trans ?_ (ih _ hops)
      cases op with
      | check t => exact check_violations_mono cfg s t
      | cleanup => exact absurd rfl hop
  · intro k j hkj
    unfold backoffSeconds
    exact min_le_min (le_refl 300)
      (Nat.mul_le_mul_left 10 (Nat.pow_le_pow_right (by norm_num) (by omega)))

/-! ## Trace lemmas for the dispatch handlers -/

theorem lockedScan_append (b : Bool) (t1 t2 : List Event) :
    lockedScan b (t1 ++ t2) = (lockedScan b t1).bind fun b' => lockedScan b' t2 := by
  induction t1 generalizing b with
  | nil => simp [lockedScan]
  | cons e tr ih => cases e <;> cases b <;> simp [lockedScan, ih]

theorem lockedScan_true_of_noLockOps (tr : List Event)
    (h : noLockOps tr = true) : lockedScan true tr = some true := by
  rw [noLockOps, List.all_eq_true] at h
  induction tr with
  | nil => rfl
  | cons e tr ih =>
    cases e with
    | acquire t r ok => exact absurd (h _ (List.mem_cons_self _ _)) Bool.false_ne_true
    | release => exact absurd (h _ (List.mem_cons_self _ _)) Bool.false_ne_true
    | hw s => exact ih fun x hx => h x (List.mem_cons_of_mem _ hx)
    | displayClose => exact ih fun x hx => h x (List.mem_cons_of_mem _ hx)

theorem noLockOps_replicate_hw (n : Nat) (s : String) :
    noLockOps (List.replicate n (.hw s)) = true := by
  induction n with
  | zero => rfl
  | succ n ih =>
    rw [List.replicate_succ]
    simpa [noLockOps, List.all_cons] using ih

theorem allRemote_of_noLockOps (tr : List Event) (h : noLockOps tr = true) :
    allRemote tr = true := by
  rw [noLockOps, List.all_eq_true] at h
  rw [allRemote, List.all_eq_true]
  intro x hx
  have hx2 := h x hx
  cases x <;> first | rfl | exact absurd hx2 Bool.false_ne_true

theorem counts_of_noLockOps (tr : List Event) (h : noLockOps tr = true) :
    countAcquireOk tr = 0 ∧ countRelease tr = 0 ∧ countAcquire tr = 0 := by
  rw [noLockOps, List.all_eq_true] at h
  refine ⟨List.countP_eq_zero.mpr ?_, List.countP_eq_zero.mpr ?_,
    List.countP_eq_zero.mpr ?_⟩ <;>
    · intro a ha
      have h2 := h a ha
      cases a <;> simp_all

theorem pairedLock_abr (t : ℤ) (body : List Event)
    (h : noLockOps body = true) :
    pairedLock (Event.acquire t true true :: body ++ [Event.release]) := by
  unfold pairedLock
  have h1 : lockedScan false (Event.acquire t true true :: body ++ [Event.release])
      = lockedScan true (body ++ [Event.release]) := rfl
  rw [h1, lockedScan_append, lockedScan_true_of_noLockOps body h]
  rfl

theorem allRemote_abr (t : ℤ) (body : List Event)
    (h : noLockOps body = true) :
    allRemote (Event.acquire t true true :: body ++ [Event.release]) = true := by
  have hb := allRemote_of_noLockOps body h
  simp [allRemote, List.all_cons, List.all_append] at hb ⊢
  exact hb

theorem counts_abr (t : ℤ) (body : List Event)
    (h : noLockOps body = true) :
    countRelease (Event.acquire t true true :: body ++ [Event.release])
      = countAcquireOk (Event.acquire t true true :: body ++ [Event.release]) := by
  obtain ⟨h1, h2, h3⟩ := counts_of_noLockOps body h
  simp only [countAcquireOk] at h1
  simp only [countRelease] at h2
  simp only [countRelease, countAcquireOk, List.countP_cons, List.countP_append,
    List.countP_nil]
  norm_num
  omega

theorem setexpr_trace_ok (env : Env) (params : List (String × PyVal)) :
    pairedLock (_handle_set_expression env params).2 ∧
    allRemote (_handle_set_expression env params).2 = true ∧
    countRelease (_handle_set_expression env params).2
      = countAcquireOk (_handle_set_expression env params).2 := by
  obtain ⟨aok, ar, msg, dc, cam, aud⟩ := env
  cases aok with
  | false =>
    exact ⟨(by decide : pairedLock [Event.acquire 5 true false]),
      (by decide : allRemote [Event.acquire 5 true false] = true),
      (by decide : countRelease [Event.acquire 5 true false]
        = countAcquireOk [Event.acquire 5 true false])⟩
  | true =>
    cases ar with
    | true =>
      have hb : noLockOps [Event.hw "servos.set_expression"] = true := by decide
      exact ⟨pairedLock_abr 5 _ hb, allRemote_abr 5 _ hb, counts_abr 5 _ hb⟩
    | false =>
      cases dc with
      | true =>
        have hb : noLockOps [Event.hw "servos.set_expression",
            Event.hw "display.update_status"] = true := by decide
        exact ⟨pairedLock_abr 5 _ hb, allRemote_abr 5 _ hb, counts_abr 5 _ hb⟩
      | false =>
        have hb : noLockOps [Event.hw "servos.set_expression"] = true := by decide
        exact ⟨pairedLock_abr 5 _ hb, allRemote_abr 5 _ hb, counts_abr 5 _ hb⟩

theorem testsync_trace_ok (env : Env) (params : List (String × PyVal)) :
    pairedLock (_handle_test_sync env params).2 ∧
    allRemote (_handle_test_sync env params).2 = true ∧
    countRelease (_handle_test_sync env params).2
      = countAcquireOk (_handle_test_sync env params).2 := by
  obtain ⟨aok, ar, msg, dc, cam, aud⟩ := env
  cases aok with
  | false =>
    exact ⟨(by decide : pairedLock [Event.acquire 5 true false]),
      (by decide : allRemote [Event.acquire 5 true false] = true),
      (by decide : countRelease [Event.acquire 5 true false]
        = countAcquireOk [Event.acquire 5 true false])⟩
  | true =>
    have hb : noLockOps [Event.hw "servos.test_sync_movement"] = true := by decide
    cases ar with
    | true => exact ⟨pairedLock_abr 5 _ hb, allRemote_abr 5 _ hb, counts_abr 5 _ hb⟩
    | false => exact ⟨pairedLock_abr 5 _ hb, allRemote_abr 5 _ hb, counts_abr 5 _ hb⟩

theorem blink_trace_ok (env : Env) (params : List (String × PyVal)) :
    pairedLock (_handle_blink env params).2 ∧
    allRemote (_handle_blink env params).2 = true ∧
    countRelease (_handle_blink env params).2
      = countAcquireOk (_handle_blink env params).2 := by
  obtain ⟨aok, ar, msg, dc, cam, aud⟩ := env
  cases aok with
  | false =>
    exact ⟨(by decide : pairedLock [Event.acquire 5 true false]),
      (by decide : allRemote [Event.acquire 5 true false] = true),
      (by decide : countRelease [Event.acquire 5 true false]
        = countAcquireOk [Event.acquire 5 true false])⟩
  | true =>
    cases ar with
    | true =>
      have hb : noLockOps [Event.hw "servos.blink"] = true := by decide
      exact ⟨pairedLock_abr 5 _ hb, allRemote_abr 5 _ hb, counts_abr 5 _ hb⟩
    | false =>
      exact ⟨pairedLock_abr 5 _ (noLockOps_replicate_hw _ _),
        allRemote_abr 5 _ (noLockOps_replicate_hw _ _),
        counts_abr 5 _ (noLockOps_replicate_hw _ _)⟩

theorem speak_trace_ok (env : Env) (params : List (String × PyVal)) :
    pairedLock (_handle_speak env params).2 ∧
    allRemote (_handle_speak env params).2 = true ∧
    countRelease (_handle_speak env params).2
      = countAcquireOk (_handle_speak env params).2 := by
  obtain ⟨aok, ar, msg, dc, cam, aud⟩ := env
  simp only [_handle_speak]
  cases ht : truthy (pyGetD params "text" (PyVal.pstr "")) <;>
    cases he : truthy (pyGet params "expression") <;>
      cases aok <;> cases ar <;> cases dc <;> simp <;> decide

theorem countAcquire_capture (env : Env) (params : List (String × PyVal)) :
    countAcquire (_handle_capture_snapshot env params).2 = 0 := by
  obtain ⟨aok, ar, msg, dc, cam, aud⟩ := env
  cases cam <;> exact (by decide : countAcquire [Event.hw "camera.read_frame"] = 0)

theorem countAcquire_audio (env : Env) (params : List (String × PyVal)) :
    countAcquire (_handle_record_audio env params).2 = 0 := by
  obtain ⟨aok, ar, msg, dc, cam, aud⟩ := env
  cases aud <;> exact (by decide : countAcquire [Event.hw "audio.record"] = 0)

theorem countAcquire_scene (env : Env) (params : List (String × PyVal)) :
    countAcquire (_handle_analyze_scene env params).2 = 0 := by
  obtain ⟨aok, ar, msg, dc, cam, aud⟩ := env
  cases cam <;> exact (by decide : countAcquire [Event.hw "camera.read_frame"] = 0)

theorem countAcquire_faces (env : Env) (params : List (String × PyVal)) :
    countAcquire (_handle_detect_faces env params).2 = 0 := by
  obtain ⟨aok, ar, msg, dc, cam, aud⟩ := env
  cases cam <;> exact (by decide : countAcquire [Event.hw "camera.read_frame"] = 0)

theorem countAcquire_status (env : Env) (params : List (String × PyVal)) :
    countAcquire (_handle_get_status env params).2 = 0 := rfl

theorem validate_ok_action (cmd : List (String × PyVal))
    (h : _validate_command cmd = none) :
    ∃ a, pyGet cmd "action" = .pstr a ∧ ALLOWED_ACTIONS.contains a = true := by
  unfold _validate_command at h
  cases hget : pyGet cmd "action" with
  | pstr a =>
    refine ⟨a, rfl, ?_⟩
    rw [hget] at h
    by_cases hc : ALLOWED_ACTIONS.contains a = true
    · exact hc
    · exfalso
      by_cases ha : a = ""
      · subst ha; simp [truthy] at h
      · have hm : a ∉ ALLOWED_ACTIONS := by simpa using hc
        simp [truthy, isStr, asStr, ha, hm] at h
  | pint n =>
    exfalso; rw [hget] at h
    by_cases hn : n = 0 <;> simp [truthy, isStr, hn] at h
  | pfloat q =>
    exfalso; rw [hget] at h
    by_cases hq : q = 0 <;> simp [truthy, isStr, hq] at h
  | pbool b =>
    exfalso; rw [hget] at h
    cases b <;> simp [truthy, isStr] at h
  | pnone =>
    exfalso; rw [hget] at h; simp [truthy] at h
  | pdict l =>
    exfalso; rw [hget] at h
    cases hl : l.isEmpty <;> simp [truthy, isStr, hl] at h
  | plist l =>
    exfalso; rw [hget] at h
    cases hl : l.isEmpty <;> simp [truthy, isStr, hl] at h

/-- C1 counterexample: `capture_snapshot` passes validation, is dispatched,
and its handler performs a hardware action (the camera read) without a
single Lock Arbiter acquisition — so not every whitelisted action acquires
the lock before touching hardware. -/
theorem claim1_counterexample :
    _validate_command [("action", PyVal.pstr "capture_snapshot")] = none ∧
    (handle_command ⟨true, false, "", false, true, true⟩
        (.pdict [("action", PyVal.pstr "capture_snapshot")])).trace
      = [Event.hw "camera.read_frame"] ∧
    countHw (handle_command ⟨true, false, "", false, true, true⟩
        (.pdict [("action", PyVal.pstr "capture_snapshot")])).trace = 1 ∧
    countAcquire (handle_command ⟨true, false, "", false, true, true⟩
        (.pdict [("action", PyVal.pstr "capture_snapshot")])).trace = 0 := by
  decide

/-- C1 (amended): for a validated command whose action is one of
set_expression, speak, blink, test_sync, the dispatched handler acquires
the Lock Arbiter with remote priority before any hardware action and the
lock is released in all cases before the response is returned; the
remaining whitelisted actions are dispatched without acquiring the lock at
all. -/
theorem claim1_lock_discipline (env : Env) (cmd : List (String × PyVal))
    (hv : _validate_command cmd = none) :
    (lockActions.contains (asStr (pyGet cmd "action")) = true →
      pairedLock (handle_command env (.pdict cmd)).trace ∧
      allRemote (handle_command env (.pdict cmd)).trace = true) ∧
    (lockActions.contains (asStr (pyGet cmd "action")) = false →
      countAcquire (handle_command env (.pdict cmd)).trace = 0) := by
  obtain ⟨a, hget, hmem⟩ := validate_ok_action cmd hv
  have hmem2 : a ∈ ALLOWED_ACTIONS := by simpa using hmem
  constructor
  · intro hlock
    rw [hget] at hlock
    simp only [asStr] at hlock
    have h4 : a = "set_expression" ∨ a = "speak" ∨ a = "blink" ∨ a = "test_sync" := by
      simpa [lockActions] using hlock
    rcases h4 with rfl | rfl | rfl | rfl
    · simp only [handle_command, hv, hget]
      simp [Outcome.of, Outcome.trace]
      exact ⟨(setexpr_trace_ok env _).1, (setexpr_trace_ok env _).2.1⟩
    · simp only [handle_command, hv, hget]
      simp [Outcome.of, Outcome.trace]
      exact ⟨(speak_trace_ok env _).1, (speak_trace_ok env _).2.1⟩
    · simp only [handle_command, hv, hget]
      simp [Outcome.of, Outcome.trace]
      exact ⟨(blink_trace_ok env _).1, (blink_trace_ok env _).2.1⟩
    · simp only [handle_command, hv, hget]
      simp [Outcome.of, Outcome.trace]
      exact ⟨(testsync_trace_ok env _).1, (testsync_trace_ok env _).2.1⟩
  · intro hfree
    rw [hget] at hfree
    simp only [asStr] at hfree
    have h9 : a = "capture_snapshot" ∨ a = "record_audio" ∨ a = "analyze_scene" ∨
        a = "get_status" ∨ a = "set_expression" ∨ a = "detect_faces" ∨
        a = "speak" ∨ a = "blink" ∨ a = "test_sync" := by
      simpa [ALLOWED_ACTIONS] using hmem2
    rcases h9 with rfl | rfl | rfl | rfl | rfl | rfl | rfl | rfl | rfl
    · simp only [handle_command, hv, hget]
      simp [Outcome.of, Outcome.trace]
      exact countAcquire_capture env _
    · simp only [handle_command, hv, hget]
      simp [Outcome.of, Outcome.trace]
      exact countAcquire_audio env _
    · simp only [handle_command, hv, hget]
      simp [Outcome.of, Outcome.trace]
      exact countAcquire_scene env _
    · simp only [handle_command, hv, hget]
      simp [Outcome.of, Outcome.trace]
      exact countAcquire_status env _
    · simp [lockActions] at hfree
    · simp only [handle_command, hv, hget]
      simp [Outcome.of, Outcome.trace]
      exact countAcquire_faces env _
    · simp [lockActions] at hfree
    · simp [lockActions] at hfree
    · simp [lockActions] at hfree

/-- C1 witness: the amended discipline at a concrete locking command
(blink) and a concrete non-locking command (capture_snapshot). -/
theorem claim1_lock_discipline_witness :
    pairedLock (handle_command ⟨true, false, "", true, true, true⟩
        (.pdict [("action", PyVal.pstr "blink")])).trace ∧
    countAcquire (handle_command ⟨true, false, "", true, true, true⟩
        (.pdict [("action", PyVal.pstr "capture_snapshot")])).trace = 0 := by
  have h1 := claim1_lock_discipline ⟨true, false, "", true, true, true⟩
      [("action", PyVal.pstr "blink")] (by decide)
  have h2 := claim1_lock_discipline ⟨true, false, "", true, true, true⟩
      [("action", PyVal.pstr "capture_snapshot")] (by decide)
  exact ⟨(h1.1 (by decide)).1, h2.2 (by decide)⟩

/-- C2: each of the four lock-taking handlers pairs every successful
acquire with exactly one release and ends its trace unlocked on every
path — failed acquire, success, or an exception from the opaque action —
and an exception raised while holding the lock is converted into a
status=error response carrying the exception text. -/
theorem claim2_guaranteed_release :
    ∀ (env : Env) (params : List (String × PyVal)),
      (pairedLock (_handle_set_expression env params).2 ∧
        countRelease (_handle_set_expression env params).2
          = countAcquireOk (_handle_set_expression env params).2) ∧
      (pairedLock (_handle_speak env params).2 ∧
        countRelease (_handle_speak env params).2
          = countAcquireOk (_handle_speak env params).2) ∧
      (pairedLock (_handle_blink env params).2 ∧
        countRelease (_handle_blink env params).2
          = countAcquireOk (_handle_blink env params).2) ∧
      (pairedLock (_handle_test_sync env params).2 ∧
        countRelease (_handle_test_sync env params).2
          = countAcquireOk (_handle_test_sync env params).2) ∧
      (env.acquire_ok = true → env.action_raises = true →
        (_handle_set_expression env params).1
            = .error ("Failed to set expression: " ++ env.raise_msg) ∧
        (_handle_blink env params).1
            = .error ("Failed to blink: " ++ env.raise_msg) ∧
        (_handle_test_sync env params).1
            = .error ("Failed to run sync test: " ++ env.raise_msg) ∧
        (truthy (pyGetD params "text" (.pstr "")) = true →
          (_handle_speak env params).1
              = .error ("Failed to speak: " ++ env.raise_msg))) := by
  intro env params
  refine ⟨⟨(setexpr_trace_ok env params).1, (setexpr_trace_ok env params).2.2⟩,
    ⟨(speak_trace_ok env params).1, (speak_trace_ok env params).2.2⟩,
    ⟨(blink_trace_ok env params).1, (blink_trace_ok env params).2.2⟩,
    ⟨(testsync_trace_ok env params).1, (testsync_trace_ok env params).2.2⟩, ?_⟩
  intro haq har
  refine ⟨?_, ?_, ?_, ?_⟩
  · simp [_handle_set_expression, haq, har]
  · simp [_handle_blink, haq, har]
  · simp [_handle_test_sync, haq, har]
  · intro ht
    simp [_handle_speak, haq, har, ht]

/-- C2 witness: the release discipline and the error conversion at a
concrete environment in which the lock is acquired and the action
raises. -/
theorem claim2_guaranteed_release_witness :
    pairedLock (_handle_set_expression ⟨true, true, "boom", false, true, true⟩ []).2 ∧
    (_handle_speak ⟨true, true, "boom", false, true, true⟩
        [("text", PyVal.pstr "hi")]).1
      = .error ("Failed to speak: " ++ "boom") := by
  have h1 := claim2_guaranteed_release ⟨true, true, "boom", false, true, true⟩ []
  have h2 := claim2_guaranteed_release ⟨true, true, "boom", false, true, true⟩
      [("text", PyVal.pstr "hi")]
  exact ⟨h1.1.1, (h2.2.2.2.2 rfl rfl).2.2.2 (by decide)⟩

/-- C6: the validator rejects a command with a missing action, a non-string
action, an unknown action, or a speak text longer than 5000 characters,
each with its specific message; a rejected command returns that error from
`handle_command` with an empty effect trace — no handler runs, no lock is
acquired, no device is touched. -/
theorem claim6_validator_rejections :
    (∀ cmd : List (String × PyVal), truthy (pyGet cmd "action") = false →
      _validate_command cmd = some "Missing required field: 'action'") ∧
    (∀ cmd : List (String × PyVal), truthy (pyGet cmd "action") = true →
      isStr (pyGet cmd "action") = false →
      _validate_command cmd = some "Field 'action' must be a string") ∧
    (∀ (cmd : List (String × PyVal)) (a : String), pyGet cmd "action" = .pstr a →
      a ≠ "" → a ∉ ALLOWED_ACTIONS →
      _validate_command cmd
        = some ("Unknown action: " ++ a ++ ". Allowed: " ++ allowedActionsSorted)) ∧
    (∀ (cmd ps : List (String × PyVal)) (s : String),
      pyGet cmd "action" = .pstr "speak" →
      pyGetD cmd "params" (.pdict []) = .pdict ps →
      pyGet ps "text" = .pstr s → 5000 < s.length →
      _validate_command cmd
        = some "Parameter 'text' exceeds maximum length (5000 characters)") ∧
    (∀ (env : Env) (cmd : List (String × PyVal)) (err : String),
      _validate_command cmd = some err →
      handle_command env (.pdict cmd) = .ok (.error err) [] ∧
      countAcquire (handle_command env (.pdict cmd)).trace = 0 ∧
      countHw (handle_command env (.pdict cmd)).trace = 0) := by
  refine ⟨?_, ?_, ?_, ?_, ?_⟩
  · intro cmd h
    simp [_validate_command, h]
  · intro cmd h1 h2
    simp [_validate_command, h1, h2]
  · intro cmd a hget ha hm
    simp [_validate_command, hget, truthy, isStr, asStr, ha, hm]
  · intro cmd ps s hget hps htext hlen
    have hs : s ≠ "" := fun h => by subst h; exact absurd hlen (by decide)
    simp [_validate_command, hget, hps, htext, truthy, isStr, asStr, hs, hlen,
      (by decide : "speak" ∈ ALLOWED_ACTIONS)]
  · intro env cmd err h
    have h2 : handle_command env (.pdict cmd) = .ok (.error err) [] := by
      simp [handle_command, h]
    exact ⟨h2, by rw [h2]; rfl, by rw [h2]; rfl⟩

/-- C6 witness: a speak command with a 5001-character text is rejected with
the length message, and an unknown action is rejected with the
unknown-action message. -/
theorem claim6_validator_rejections_witness :
    _validate_command
        [("action", PyVal.pstr "speak"),
         ("params", PyVal.pdict
           [("text", PyVal.pstr (String.mk (List.replicate 5001 'a')))])]
      = some "Parameter 'text' exceeds maximum length (5000 characters)" ∧
    _validate_command [("action", PyVal.pstr "fly")]
      = some ("Unknown action: " ++ "fly" ++ ". Allowed: " ++ allowedActionsSorted) := by
  have h := claim6_validator_rejections
  have hlen : 5000 < (String.mk (List.replicate 5001 'a')).length := by
    have h1 : (String.mk (List.replicate 5001 'a')).length = 5001 := by
      show (List.replicate 5001 'a').length = 5001
      exact List.length_replicate _ _
    omega
  exact ⟨h.2.2.2.1 _ _ _ rfl rfl rfl hlen,
    h.2.2.1 _ "fly" rfl (by decide) (by decide)⟩

/-- C9 witness: the one-step conjuncts applied at a concrete allowed check,
a concrete denied check, a concrete cleanup-free run, and a concrete
backoff pair. -/
theorem claim9_violations_monotone_witness :
    (check_rate_limit serverRL ⟨[], 4⟩ 7).1.violations = 4 ∧
    (⟨[], 4⟩ : ConnState).violations
      ≤ (applyRLOps serverRL ⟨[], 4⟩ [.check 1, .check 2]).violations ∧
    backoffSeconds 2 ≤ backoffSeconds 5 := by
  have h := claim9_violations_monotone
  exact ⟨(h.1 serverRL ⟨[], 4⟩ 7).1 (by decide),
    h.2.1 serverRL ⟨[], 4⟩ [.check 1, .check 2] (by decide),
    h.2.2 2 5 (by decide)⟩

/-! ## Connection handling: claim C3 -/

/-- C3 counterexample: with a token configured, a first message that parses
to a JSON value that is not a dict (here a list) raises AttributeError at
`auth_data.get`, which is not in the caught exception tuple — the
connection is torn down before any command processing but no error reply
is sent, contrary to the claim that a non-matching first message always
gets an error reply. -/
theorem claim3_counterexample :
    carriesToken "secret" (AuthRecv.val (PyVal.plist [])) = false ∧
    (handle_client (some "secret") ⟨true, false, "", false, true, true⟩ 0
        (AuthRecv.val (PyVal.plist [])) []).authErrorSent = false ∧
    (handle_client (some "secret") ⟨true, false, "", false, true, true⟩ 0
        (AuthRecv.val (PyVal.plist [])) []).authenticated = false ∧
    (handle_client (some "secret") ⟨true, false, "", false, true, true⟩ 0
        (AuthRecv.val (PyVal.plist [])) []).dispatched = [] := by
  exact ⟨rfl, rfl, rfl, rfl⟩

/-- C3 (amended): no command is dispatched on a connection that is not
authenticated; with a token configured, a first message that does not
carry the exact token leaves the connection unauthenticated with nothing
dispatched; the error reply is sent in the timeout, invalid-JSON, and
wrong-token-dict cases (a parsed non-dict first message tears the
connection down without a reply); with no token configured every admitted
connection is authenticated; the authentication wait uses the 5-second
timeout. -/
theorem claim3_auth_gate :
    (∀ (tok_opt : Option String) (env : Env) (n : Nat) (auth : AuthRecv)
        (msgs : List (ℤ × Recv)),
      (handle_client tok_opt env n auth msgs).authenticated = false →
      (handle_client tok_opt env n auth msgs).dispatched = []) ∧
    (∀ (tok : String) (env : Env) (n : Nat) (auth : AuthRecv)
        (msgs : List (ℤ × Recv)),
      carriesToken tok auth = false →
      (handle_client (some tok) env n auth msgs).authenticated = false ∧
      (handle_client (some tok) env n auth msgs).dispatched = []) ∧
    (∀ (tok : String) (env : Env) (n : Nat) (d : List (String × PyVal))
        (msgs : List (ℤ × Recv)), n < max_connections →
      carriesToken tok (.val (.pdict d)) = false →
      (handle_client (some tok) env n (.val (.pdict d)) msgs).authErrorSent
        = true) ∧
    (∀ (tok : String) (env : Env) (n : Nat) (msgs : List (ℤ × Recv)),
        n < max_connections →
      (handle_client (some tok) env n .timeout msgs).authErrorSent = true ∧
      (handle_client (some tok) env n .badJson msgs).authErrorSent = true) ∧
    (∀ (env : Env) (n : Nat) (auth : AuthRecv) (msgs : List (ℤ × Recv)),
        n < max_connections →
      (handle_client none env n auth msgs).authenticated = true) ∧
    auth_timeout_seconds = 5 := by
  refine ⟨?_, ?_, ?_, ?_, ?_, rfl⟩
  · intro tok_opt env n auth msgs
    unfold handle_client
    by_cases hn : max_connections ≤ n
    · simp [hn]
    · simp only [hn, if_false]
      cases tok_opt with
      | none => simp
      | some tok =>
        cases auth with
        | timeout => intro _; rfl
        | badJson => intro _; rfl
        | val v =>
          cases v with
          | pdict d =>
            by_cases hm : (match pyGet d "token" with
              | PyVal.pstr s => s == tok
              | _ => false) = true
            · simp [hm]
            · simp [hm]
          | pstr s => intro _; rfl
          | pint m => intro _; rfl
          | pfloat q => intro _; rfl
          | pbool b => intro _; rfl
          | pnone => intro _; rfl
          | plist l => intro _; rfl
  · intro tok env n auth msgs hc
    unfold handle_client
    by_cases hn : max_connections ≤ n
    · simp [hn]
    · simp only [hn, if_false]
      cases auth with
      | timeout => exact ⟨rfl, rfl⟩
      | badJson => exact ⟨rfl, rfl⟩
      | val v =>
        cases v with
        | pdict d =>
          simp only [carriesToken] at hc
          simp [hc]
        | pstr s => exact ⟨rfl, rfl⟩
        | pint m => exact ⟨rfl, rfl⟩
        | pfloat q => exact ⟨rfl, rfl⟩
        | pbool b => exact ⟨rfl, rfl⟩
        | pnone => exact ⟨rfl, rfl⟩
        | plist l => exact ⟨rfl, rfl⟩
  · intro tok env n d msgs hn hc
    have hn2 : ¬max_connections ≤ n := by omega
    unfold handle_client
    simp only [carriesToken] at hc
    simp [hn2, hc]
  · intro tok env n msgs hn
    have hn2 : ¬max_connections ≤ n := by omega
    unfold handle_client
    simp [hn2]
  · intro env n auth msgs hn
    have hn2 : ¬max_connections ≤ n := by omega
    unfold handle_client
    simp [hn2]

/-- C3 witness: the amended guarantees at a concrete rejected
authentication (timeout with a configured token) and a concrete
no-token connection. -/
theorem claim3_auth_gate_witness :
    (handle_client (some "secret") ⟨true, false, "", false, true, true⟩ 0
        AuthRecv.timeout []).authErrorSent = true ∧
    (handle_client none ⟨true, false, "", false, true, true⟩ 0
        AuthRecv.timeout []).authenticated = true := by
  have h := claim3_auth_gate
  exact ⟨(h.2.2.2.1 "secret" _ 0 [] (by decide)).1,
    h.2.2.2.2.1 _ 0 AuthRecv.timeout [] (by decide)⟩

/-! ## Device-handle idle release: claim C7 -/

/-- C7 counterexample: the camera handle, opened by a read, is still
attached after a million seconds with no activity and no further calls —
`CameraManager` has no idle-release transition, so not every device handle
of this core detaches after an idle interval. -/
theorem claim7_counterexample :
    (camElapse (camReadFrame CamState.init true) 1000000).is_opened = true ∧
    camElapse ⟨true⟩ 1000000 = ⟨true⟩ := by
  exact ⟨rfl, rfl⟩

/-- C7 (amended): only the servo bank has an idle release — after a
movement at time t with no further activity, by time t + detach_delay the
armed timer has run `_detach_servos`, detaching the servos (stopping the
PWM drive; the GPIO pins remain claimed until `close()`); the camera has
no idle-release transition at all. -/
theorem claim7_idle_detach (s : ServoState) (t u : ℤ)
    (h : t + detach_delay ≤ u) :
    (servoElapse (servoMove s t) u).attached = false ∧
    (servoElapse (servoMove s t) u).pending_detach = none ∧
    (servoElapse (servoMove s t) u).pins_claimed = s.pins_claimed ∧
    (∀ (c : CamState) (v : ℤ), camElapse c v = c) := by
  unfold servoMove servoElapse
  simp [h]
  exact fun c v => rfl

/-- C7 witness: the servo detach at a concrete movement time and elapse
time exactly one detach delay later. -/
theorem claim7_idle_detach_witness :
    (servoElapse (servoMove ⟨false, true, none⟩ 0) 2).attached = false ∧
    (servoElapse (servoMove ⟨false, true, none⟩ 0) 2).pins_claimed = true := by
  have h := claim7_idle_detach ⟨false, true, none⟩ 0 2 (by decide)
  exact ⟨h.1, h.2.2.1⟩

/-! ## Hardware coordinator: claims C8 and C10 -/

theorem acquireAux_fail_is_locked (attempts : Nat → AttemptOutcome) :
    ∀ (fuel k : Nat) (c : Coordinator),
      (acquireAux attempts fuel k c).ok = false →
      (acquireAux attempts fuel k c).post.is_locked = c.is_locked := by
  intro fuel
  induction fuel with
  | zero =>
    intro k c h
    unfold acquireAux at h ⊢
    cases hA : attempts k <;> simp [hA] at h ⊢
  | succ fuel ih =>
    intro k c h
    unfold acquireAux at h ⊢
    cases hA : attempts k
    · simp [hA] at h
    · simp only [hA] at h ⊢
      exact ih (k + 1) ⟨some k, c.is_locked⟩ h
    · simp [hA]

/-- C8: `release()` is a no-op whenever `is_locked` is false (in particular
on a fresh coordinator and after a failed acquire), and releasing twice in
a row — whatever the unlock raises — has the same effect as releasing
once. -/
theorem claim8_release_idempotent :
    (∀ (c : Coordinator) (r : Bool), c.is_locked = false → c.release r = c) ∧
    (∀ (c : Coordinator) (r1 r2 : Bool),
      (c.release r1).release r2 = c.release r1) ∧
    (∀ r : Bool, Coordinator.init.release r = Coordinator.init) ∧
    (∀ (attempts : Nat → AttemptOutcome) (fuel : Nat) (r : Bool),
      (Coordinator.init.acquire attempts fuel).ok = false →
      (Coordinator.init.acquire attempts fuel).post.release r
        = (Coordinator.init.acquire attempts fuel).post) := by
  have part1 : ∀ (c : Coordinator) (r : Bool), c.is_locked = false →
      c.release r = c := by
    intro c r h
    simp [Coordinator.release, h]
  refine ⟨part1, ?_, ?_, ?_⟩
  · intro c r1 r2
    by_cases h : c.is_locked ∧ c.lock_fd.isSome
    · cases r1 <;> simp [Coordinator.release, h]
    · simp [Coordinator.release, h]
  · intro r
    exact part1 _ r rfl
  · intro attempts fuel r hok
    exact part1 _ r (acquireAux_fail_is_locked attempts fuel 0 Coordinator.init hok)

/-- C8 witness: the no-op behaviour at a concrete unlocked state and the
double-release at a concrete locked state. -/
theorem claim8_release_idempotent_witness :
    Coordinator.release ⟨some 3, false⟩ false = ⟨some 3, false⟩ ∧
    (Coordinator.release (Coordinator.release ⟨some 3, true⟩ false) false)
      = Coordinator.release ⟨some 3, true⟩ false := by
  have h := claim8_release_idempotent
  exact ⟨h.1 ⟨some 3, false⟩ false rfl, h.2.1 ⟨some 3, true⟩ false false⟩

theorem acquireAux_other_error (attempts : Nat → AttemptOutcome) :
    ∀ (j fuel k : Nat) (c : Coordinator), j ≤ fuel →
      (∀ i, i < j → attempts (k + i) = .ioError) →
      attempts (k + j) = .otherError →
      acquireAux attempts fuel k c = ⟨⟨none, c.is_locked⟩, false, k + j + 1⟩ := by
  intro j
  induction j with
  | zero =>
    intro fuel k c _ _ hj
    have hj2 : attempts k = .otherError := by simpa using hj
    cases fuel with
    | zero => unfold acquireAux; simp [hj2]
    | succ fuel => unfold acquireAux; simp [hj2]
  | succ j ih =>
    intro fuel k c hle hio hj
    cases fuel with
    | zero => omega
    | succ fuel =>
      have h0 : attempts k = .ioError := by
        simpa using hio 0 (Nat.succ_pos j)
      unfold acquireAux
      simp only [h0]
      have hrec := ih fuel (k + 1) ⟨some k, c.is_locked⟩ (by omega)
        (fun i hi => by
          rw [show k + 1 + i = k + (i + 1) from by omega]
          exact hio (i + 1) (by omega))
        (by rw [show k + 1 + j = k + (j + 1) from by omega]; exact hj)
      rw [hrec, show k + 1 + j + 1 = k + (j + 1) + 1 from by omega]

/-- C10: when iteration j of the acquire loop raises a non-IOError
exception (after j IOError retries, with timeout budget left), acquire
returns False at once — only j+1 iterations run, not the full budget —
with the opened file descriptor closed, `lock_fd` cleared, and `is_locked`
still false. -/
theorem claim10_acquire_non_ioerror (attempts : Nat → AttemptOutcome)
    (fuel j : Nat) (c : Coordinator)
    (hlock : c.is_locked = false) (hle : j ≤ fuel)
    (hio : ∀ i, i < j → attempts i = .ioError)
    (hj : attempts j = .otherError) :
    (c.acquire attempts fuel).ok = false ∧
    (c.acquire attempts fuel).post = ⟨none, false⟩ ∧
    (c.acquire attempts fuel).iterations = j + 1 := by
  have h := acquireAux_other_error attempts j fuel 0 c hle
    (fun i hi => by simpa using hio i hi) (by simpa using hj)
  unfold Coordinator.acquire
  rw [h, hlock]
  exact ⟨rfl, rfl, by simp⟩

/-- C10 witness: a concrete run whose third iteration raises a non-IOError
exception with retry budget remaining: three iterations run, the result is
False, and the state is cleared. -/
theorem claim10_acquire_non_ioerror_witness :
    ((Coordinator.init.acquire
        (fun i => if i < 2 then .ioError else .otherError) 5).ok = false) ∧
    (Coordinator.init.acquire
        (fun i => if i < 2 then .ioError else .otherError) 5).post
      = ⟨none, false⟩ ∧
    (Coordinator.init.acquire
        (fun i => if i < 2 then .ioError else .otherError) 5).iterations
      = 2 + 1 := by
  exact claim10_acquire_non_ioerror _ 5 2 Coordinator.init rfl (by omega)
    (fun i hi => by simp [hi]) (by decide)

end Gairi
